import Mathlib

/-!
Verification development for `scripts/screenshot.py`, a Playwright-based
screenshot tool with an interactive authentication bootstrap.

The Python source is shallowly embedded below.  Pure logic (string pattern
checks, slugification, the polling loop's control flow, the screenshot run's
result accounting) is translated directly; interactions with the outside
world (Playwright navigation, `time.time()`, `os.chmod`, exceptions raised
by library calls) become explicit parameters describing the environment's
behaviour, so every embedded function stays executable and total.
-/

namespace Screenshot

/-- Python's substring test `needle in haystack` needs a helper: does the
first list occur as the start of the second? -/
def startsWithChars : List Char → List Char → Bool
  | [], _ => true
  | _ :: _, [] => false
  | a :: as, b :: bs => a = b && startsWithChars as bs

/-- Does `needle` occur contiguously anywhere inside `haystack`? -/
def containsChars (needle : List Char) : List Char → Bool
  | [] => needle.isEmpty
  | h :: t => startsWithChars needle (h :: t) || containsChars needle t

/-- Embedding of Python's `needle in haystack` for strings (contiguous
substring test). -/
def pyIn (needle haystack : String) : Bool :=
  containsChars needle.data haystack.data

/-- `TRUSTED_HOSTS = {"localhost", "127.0.0.1", "::1"}` — hosts allowed to
use `ignore_https_errors` (screenshot.py line 40). -/
def TRUSTED_HOSTS : List String := ["localhost", "127.0.0.1", "::1"]

/-- `is_trusted_host(base_url)` (screenshot.py lines 83-86) computes
`urlparse(base_url).hostname in TRUSTED_HOSTS`.  `urlparse` is the Python
standard library; its result's `.hostname` attribute is `None` when the URL
has no network location, otherwise the host string.  The embedding takes
that parsed hostname as input: `none` is Python's `None`, and
`None in TRUSTED_HOSTS` is `False` in Python. -/
def is_trusted_host (hostname : Option String) : Bool :=
  match hostname with
  | none => false
  | some h => TRUSTED_HOSTS.contains h

/-- `OUTPUT_DIR = tempfile.gettempdir()` (screenshot.py line 36).  The value
is environment-dependent; the embedding keeps it abstract as a fixed string
constant (its concrete value never matters to the claims). -/
def OUTPUT_DIR : String := "/tmp"

/-- Python's `s.strip(c)`: remove every leading and trailing occurrence of
the character `c`. -/
def pyStripChar (c : Char) (s : List Char) : List Char :=
  ((s.dropWhile (· = c)).reverse.dropWhile (· = c)).reverse

/-- The output-name computation for a positional page argument
(screenshot.py line 296):
`f"page-{path.strip('/').replace('/', '-') or 'top'}.png"`.
`replace` substitutes every `/` with `-`; `or 'top'` picks `"top"` when the
stripped string is empty (Python's falsy empty string). -/
def page_output_name (path : String) : String :=
  let stripped := pyStripChar '/' path.data
  let replaced := stripped.map (fun ch => if ch = '/' then '-' else ch)
  let body := if replaced.isEmpty then "top".data else replaced
  "page-" ++ String.mk body ++ ".png"

/-- A browser cookie as returned by `context.cookies()`; the polling loop
inspects only the `name` field. -/
structure Cookie where
  name : String
deriving DecidableEq, Repr

/-- One snapshot of the interactive browser during polling: the values of
`page.url` and `context.cookies()` read inside the loop's `try` block. -/
structure BrowserObs where
  current_url : String
  cookies : List Cookie
deriving DecidableEq, Repr

/-- The auth-related URL patterns tested with Python's `in`
(screenshot.py lines 149-151). -/
def AUTH_URL_PATTERNS : List String :=
  ["/login", "/api/auth/callback", "github.com", "accounts.google"]

/-- Embeds `is_auth_page = any(x in current_url for x in [...])`
(screenshot.py lines 149-151). -/
def is_auth_page (current_url : String) : Bool :=
  AUTH_URL_PATTERNS.any (fun x => pyIn x current_url)

/-- The session cookie name, `session_cookie_name = "__Host-session"`
(screenshot.py line 92). -/
def session_cookie_name : String := "__Host-session"

/-- Embeds `has_session = any(c["name"] == session_cookie_name for c in
cookies)` (screenshot.py line 155). -/
def has_session (cookies : List Cookie) : Bool :=
  cookies.any (fun c => c.name == session_cookie_name)

/-- The break condition of the polling loop (screenshot.py line 162):
`not is_auth_page and has_session`. -/
def login_success (o : BrowserObs) : Bool :=
  !is_auth_page o.current_url && has_session o.cookies

/-- Embeds `timeout_sec = 300` — five minutes (screenshot.py line 141). -/
def timeout_sec : Nat := 300

/-- How one run of the polling loop ends: `success i` — the break at
iteration `i`; `timedOut i` — the `TimeoutError` raised at iteration `i`;
`fuelOut` — the recursion bound was exhausted (shown unreachable for any
environment whose clock advances through the sleeps). -/
inductive LoopResult where
  | success (iter : Nat)
  | timedOut (iter : Nat)
  | fuelOut
deriving DecidableEq, Repr

/-- The `while True` polling loop of `auth_setup` (screenshot.py lines
144-172), one recursive call per iteration.  The environment is described
by `obs i` — the result of reading `page.url` and `context.cookies()` at
iteration `i`, where `none` models those library calls raising (absorbed
by the `except` branch, which only prints) — and `elapsed i`, the
whole-second value of `time.time() - start_time` at iteration `i`'s
timeout check.  As in the source, the success break is tested before the
timeout check, and the timeout check still runs when the reads raised.
`fuel` bounds the recursion so the function is total. -/
def auth_wait_loop (obs : Nat → Option BrowserObs) (elapsed : Nat → Nat) :
    Nat → Nat → LoopResult
  | 0, _ => .fuelOut
  | fuel + 1, i =>
    match obs i with
    | some o =>
      if login_success o then .success i
      else if elapsed i > timeout_sec then .timedOut i
      else auth_wait_loop obs elapsed fuel (i + 1)
    | none =>
      if elapsed i > timeout_sec then .timedOut i
      else auth_wait_loop obs elapsed fuel (i + 1)

/-- Exit code and persisted-state effects of one `auth_setup` run. -/
structure AuthSetupOutcome where
  exit_code : Nat
  state_saved : Bool
  /-- Mode bits left on the state file by `os.chmod`: `some m` when the
  chmod was applied, `none` when nothing was saved or the chmod raised
  `OSError` (the caught branch that only prints a warning). -/
  final_mode : Option Nat
deriving DecidableEq, Repr

/-- Embeds `stat.S_IRUSR` (owner read bit). -/
def S_IRUSR : Nat := 0o400

/-- Embeds `stat.S_IWUSR` (owner write bit). -/
def S_IWUSR : Nat := 0o200

/-- The `auth_setup` routine around the polling loop (screenshot.py lines
89-200).  `nav_ok` is whether the initial `page.goto(login_url)` succeeds;
on failure the routine prints a hint and calls `sys.exit(1)`.  On loop
success the storage state is written and `os.chmod(path,
stat.S_IRUSR | stat.S_IWUSR)` is attempted; `chmod_ok` says whether the OS
applies it (its `OSError` is caught with a warning only).  A
`TimeoutError` escaping the loop is caught and the process exits 1; the
`fuelOut` artifact (unreachable when the clock advances, see the
termination theorem) is mapped to the generic `except Exception` exit-1
branch. -/
def auth_setup_model (nav_ok : Bool) (obs : Nat → Option BrowserObs)
    (elapsed : Nat → Nat) (chmod_ok : Bool) : AuthSetupOutcome :=
  if !nav_ok then ⟨1, false, none⟩
  else
    match auth_wait_loop obs elapsed (timeout_sec + 2) 0 with
    | .success _ =>
      ⟨0, true, if chmod_ok then some (S_IRUSR ||| S_IWUSR) else none⟩
    | .timedOut _ => ⟨1, false, none⟩
    | .fuelOut => ⟨1, false, none⟩

/-- Environment behaviour for one page of a capture run: whether
`page.goto` + `wait_for_load_state` succeed, the value of `page.url` after
navigation, and whether `page.screenshot` succeeds. -/
structure PageEnv where
  goto_ok : Bool
  landed_url : String
  shot_ok : Bool

/-- The `take_screenshot` function (screenshot.py lines 65-80).  Returns
(whether the session-expired warning was printed, `some` output path on
success / `none` when a library call raised and the exception propagates
to the caller).  The warning is printed exactly when `"/login" in
page.url`, after navigation succeeds and before the screenshot call; the
screenshot is attempted unconditionally afterwards. -/
def take_screenshot (goto_ok : Bool) (landed_url : String)
    (shot_ok : Bool) (output_name : String) : Bool × Option String :=
  if !goto_ok then (false, none)
  else
    let warned := pyIn "/login" landed_url
    if !shot_ok then (warned, none)
    else (warned, some (OUTPUT_DIR ++ "/" ++ output_name))

/-- The `for path, output_name in pages` loop of `take_screenshots`
(screenshot.py lines 235-241): every page is attempted in order; a page
whose capture raises is caught, logged and skipped; a successful capture
appends its output path to `results`.  Returns (pages attempted, the
`results` list of saved output paths). -/
def capture_loop (env : String × String → PageEnv) :
    List (String × String) → List (String × String) × List String
  | [] => ([], [])
  | pr :: rest =>
    let e := env pr
    let shot := take_screenshot e.goto_ok e.landed_url e.shot_ok pr.2
    let tail := capture_loop env rest
    (pr :: tail.1,
      match shot.2 with
      | some out => out :: tail.2
      | none => tail.2)

/-- Observable outcome of one `take_screenshots` run. -/
structure RunOutcome where
  exit_code : Nat
  attempted : List (String × String)
  outputs : List String
  printed_count : Option Nat
deriving DecidableEq, Repr

/-- The `take_screenshots` routine (screenshot.py lines 203-245): when
`use_auth` is set and the auth state file does not exist, print an error
and `sys.exit(1)` before any browser is launched; otherwise run the
capture loop over all pages and print `len(results)` at the end, returning
normally (process exit code 0). -/
def take_screenshots (auth_state_exists : Bool) (use_auth : Bool)
    (env : String × String → PageEnv) (pages : List (String × String)) :
    RunOutcome :=
  if use_auth && !auth_state_exists then ⟨1, [], [], none⟩
  else
    let r := capture_loop env pages
    ⟨0, r.1, r.2, some r.2.length⟩

/-- A polling environment in which the browser has reached the app's home
page with the session cookie set from the first observation on. -/
def obs_ok : Nat → Option BrowserObs :=
  fun _ => some ⟨"https://localhost:4321/", [⟨"__Host-session"⟩]⟩

/-- A polling environment stuck on the login page forever (the user never
completes the login). -/
def obs_login : Nat → Option BrowserObs :=
  fun _ => some ⟨"https://localhost:4321/login", []⟩

/-- Demo page list for capture-run witnesses. -/
def demo_pages : List (String × String) :=
  [("/", "page-top.png"), ("/bonsai", "page-bonsai.png")]

/-- Demo capture environment: navigation to `/bonsai` raises, every other
page succeeds. -/
def env_demo : String × String → PageEnv :=
  fun pr =>
    if pr.1 = "/bonsai" then ⟨false, "", false⟩
    else ⟨true, "https://localhost:4321" ++ pr.1, true⟩

/-- Demo capture environment in which every page succeeds. -/
def env_all_ok : String × String → PageEnv :=
  fun pr => ⟨true, "https://localhost:4321" ++ pr.1, true⟩

end Screenshot

namespace Screenshot

/-- C2: the host-trust check returns true exactly on the three loopback
allowlist entries: any hostname equal to `localhost`, `127.0.0.1` or `::1`
is trusted, and every other hostname is not. -/
theorem C2_is_trusted_host_allowlist (h : String) :
    (h = "localhost" ∨ h = "127.0.0.1" ∨ h = "::1" →
      is_trusted_host (some h) = true) ∧
    (h ≠ "localhost" → h ≠ "127.0.0.1" → h ≠ "::1" →
      is_trusted_host (some h) = false) := by
  constructor
  · rintro (rfl | rfl | rfl) <;> rfl
  · intro h1 h2 h3
    simp [is_trusted_host, TRUSTED_HOSTS, List.contains_cons, h1, h2, h3]

/-- Witness for C2 at concrete hostnames: `localhost` is trusted and
`example.com` is not. -/
theorem C2_is_trusted_host_allowlist_witness :
    is_trusted_host (some "localhost") = true ∧
    is_trusted_host (some "example.com") = false :=
  ⟨(C2_is_trusted_host_allowlist "localhost").1 (Or.inl rfl),
   (C2_is_trusted_host_allowlist "example.com").2 (by decide) (by decide)
     (by decide)⟩

/-- C10: a URL whose parsed hostname is absent (`None`, e.g. a bare path
with no network location) is never trusted, so relaxed TLS certificate
validation cannot be enabled for it. -/
theorem C10_no_hostname_untrusted : is_trusted_host none = false := rfl

/-- C5: the positional page argument `/bonsai/new` slugifies to
`page-bonsai-new.png`, and the root path `/` slugifies to `page-top.png`. -/
theorem C5_page_output_names :
    page_output_name "/bonsai/new" = "page-bonsai-new.png" ∧
    page_output_name "/" = "page-top.png" := by
  constructor <;> rfl

/-- Every page of the list is attempted by the capture loop, in order. -/
theorem capture_loop_attempted (env : String × String → PageEnv)
    (pages : List (String × String)) : (capture_loop env pages).1 = pages := by
  induction pages with
  | nil => rfl
  | cons pr rest ih => simp [capture_loop, ih]

/-- A page whose own navigation and screenshot succeed contributes its
output path to the capture loop's results, whatever happens to the other
pages. -/
theorem capture_loop_mem (env : String × String → PageEnv)
    (pages : List (String × String)) (pr : String × String)
    (hmem : pr ∈ pages) (hg : (env pr).goto_ok = true)
    (hs : (env pr).shot_ok = true) :
    (OUTPUT_DIR ++ "/" ++ pr.2) ∈ (capture_loop env pages).2 := by
  induction pages with
  | nil => cases hmem
  | cons q rest ih =>
    rcases List.mem_cons.mp hmem with rfl | hrest
    · simp [capture_loop, take_screenshot, hg, hs]
    · have htail := ih hrest
      simp only [capture_loop]
      cases hshot : (take_screenshot (env q).goto_ok (env q).landed_url
          (env q).shot_ok q.2).2 with
      | none => simpa [hshot] using htail
      | some out => simp only [hshot]; exact List.mem_cons_of_mem out htail

/-- When every page's capture succeeds, the capture loop collects exactly
one output path per page. -/
theorem capture_loop_length_all_ok (env : String × String → PageEnv)
    (pages : List (String × String))
    (hok : ∀ pr ∈ pages, (env pr).goto_ok = true ∧ (env pr).shot_ok = true) :
    (capture_loop env pages).2.length = pages.length := by
  induction pages with
  | nil => rfl
  | cons q rest ih =>
    have hq := hok q (List.mem_cons_self q rest)
    have hr := fun pr h => hok pr (List.mem_cons_of_mem q h)
    simp [capture_loop, take_screenshot, hq.1, hq.2, ih hr]

/-- C1: the bootstrap polling loop breaks with success only at an
iteration whose observed URL matches none of the auth-related patterns AND
whose cookie jar contains `__Host-session`; cookie presence alone never
ends the loop while the URL still matches an auth pattern. -/
theorem C1_success_requires_both (obs : Nat → Option BrowserObs)
    (elapsed : Nat → Nat) (fuel start j : Nat)
    (h : auth_wait_loop obs elapsed fuel start = .success j) :
    ∃ o, obs j = some o ∧ is_auth_page o.current_url = false ∧
      has_session o.cookies = true := by
  induction fuel generalizing start with
  | zero => simp [auth_wait_loop] at h
  | succ fuel ih =>
    simp only [auth_wait_loop] at h
    cases hobs : obs start with
    | none =>
      simp only [hobs] at h
      split at h
      · exact LoopResult.noConfusion h
      · exact ih _ h
    | some o =>
      simp only [hobs] at h
      split at h
      next hsucc =>
        injection h with hj
        subst hj
        simp only [login_success, Bool.and_eq_true, Bool.not_eq_true'] at hsucc
        exact ⟨o, hobs, hsucc.1, hsucc.2⟩
      next hsucc =>
        split at h
        · exact LoopResult.noConfusion h
        · exact ih _ h

/-- Witness for C1: a run in which the browser reaches the home page with
the session cookie set breaks immediately, and that break satisfies both
conditions. -/
theorem C1_success_requires_both_witness :
    ∃ o, obs_ok 0 = some o ∧ is_auth_page o.current_url = false ∧
      has_session o.cookies = true :=
  C1_success_requires_both obs_ok (fun i => i) (timeout_sec + 2) 0 0
    (by decide)

/-- The loop only raises its timeout at an iteration where the elapsed
time strictly exceeds `timeout_sec`. -/
theorem auth_wait_loop_timedOut_elapsed (obs : Nat → Option BrowserObs)
    (elapsed : Nat → Nat) (fuel start j : Nat)
    (h : auth_wait_loop obs elapsed fuel start = .timedOut j) :
    elapsed j > timeout_sec := by
  induction fuel generalizing start with
  | zero => simp [auth_wait_loop] at h
  | succ fuel ih =>
    simp only [auth_wait_loop] at h
    cases hobs : obs start with
    | none =>
      simp only [hobs] at h
      split at h
      next ht => injection h with hj; subst hj; exact ht
      next ht => exact ih _ h
    | some o =>
      simp only [hobs] at h
      split at h
      next => exact LoopResult.noConfusion h
      next =>
        split at h
        next ht => injection h with hj; subst hj; exact ht
        next ht => exact ih _ h

/-- With enough fuel, the loop cannot exhaust it: each completed iteration
is preceded by one `time.sleep(1)`, so an environment's clock satisfies
`i ≤ elapsed i`, and once `elapsed` passes `timeout_sec` the loop raises
instead of recursing. -/
theorem auth_wait_loop_no_fuel_out (obs : Nat → Option BrowserObs)
    (elapsed : Nat → Nat) (hclock : ∀ i, i ≤ elapsed i) :
    ∀ fuel i, timeout_sec + 1 - i < fuel →
      auth_wait_loop obs elapsed fuel i ≠ .fuelOut := by
  intro fuel
  induction fuel with
  | zero => intro i hi; omega
  | succ fuel ih =>
    intro i hi
    simp only [auth_wait_loop]
    cases hobs : obs i with
    | none =>
      simp only [hobs]
      split
      · exact fun hc => LoopResult.noConfusion hc
      next ht => exact ih (i + 1) (by have := hclock i; omega)
    | some o =>
      simp only [hobs]
      split
      · exact fun hc => LoopResult.noConfusion hc
      · split
        · exact fun hc => LoopResult.noConfusion hc
        next ht => exact ih (i + 1) (by have := hclock i; omega)

/-- C7: the polling loop always terminates.  For any environment whose
clock has advanced at least `i` seconds by iteration `i` (one `sleep(1)`
per completed iteration), fuel `timeout_sec + 2` is never exhausted: the
loop either breaks with success, or raises the timeout error at an
iteration whose elapsed time exceeds the fixed 300-second ceiling, and in
that case `auth_setup` catches the `TimeoutError` and exits with the
non-zero status 1. -/
theorem C7_loop_termination (obs : Nat → Option BrowserObs)
    (elapsed : Nat → Nat) (hclock : ∀ i, i ≤ elapsed i) :
    (∃ j, auth_wait_loop obs elapsed (timeout_sec + 2) 0 = .success j) ∨
    (∃ j, auth_wait_loop obs elapsed (timeout_sec + 2) 0 = .timedOut j ∧
      elapsed j > timeout_sec ∧
      ∀ chmod_ok, (auth_setup_model true obs elapsed chmod_ok).exit_code = 1) := by
  have hno := auth_wait_loop_no_fuel_out obs elapsed hclock (timeout_sec + 2) 0
    (by omega)
  cases hres : auth_wait_loop obs elapsed (timeout_sec + 2) 0 with
  | success j => exact Or.inl ⟨j, rfl⟩
  | timedOut j =>
    refine Or.inr ⟨j, rfl,
      auth_wait_loop_timedOut_elapsed obs elapsed (timeout_sec + 2) 0 j hres,
      fun chmod_ok => ?_⟩
    simp [auth_setup_model, hres]
  | fuelOut => exact absurd hres hno

/-- Witness for C7: a user who never leaves the login page makes the loop
time out rather than spin forever. -/
theorem C7_loop_termination_witness :
    (∃ j, auth_wait_loop obs_login (fun i => i) (timeout_sec + 2) 0 =
      .success j) ∨
    (∃ j, auth_wait_loop obs_login (fun i => i) (timeout_sec + 2) 0 =
      .timedOut j ∧ j > timeout_sec ∧
      ∀ chmod_ok,
        (auth_setup_model true obs_login (fun i => i) chmod_ok).exit_code = 1) :=
  C7_loop_termination obs_login (fun i => i) (fun i => Nat.le_refl i)

/-- C8: after a bootstrap run that saved the session state and whose
`os.chmod` call was applied by the OS, the state file's mode is exactly
`S_IRUSR | S_IWUSR` = `0o600`: owner read and write, with every group and
other permission bit clear (`0o600 % 0o100 = 0`). -/
theorem C8_state_file_mode (nav_ok : Bool) (obs : Nat → Option BrowserObs)
    (elapsed : Nat → Nat)
    (hsaved : (auth_setup_model nav_ok obs elapsed true).state_saved = true) :
    (auth_setup_model nav_ok obs elapsed true).final_mode =
      some (S_IRUSR ||| S_IWUSR) ∧
    S_IRUSR ||| S_IWUSR = 0o600 ∧ 0o600 % 0o100 = 0 := by
  refine ⟨?_, by decide, by decide⟩
  cases nav_ok with
  | false => simp [auth_setup_model] at hsaved
  | true =>
    cases hres : auth_wait_loop obs elapsed (timeout_sec + 2) 0 with
    | success j => simp [auth_setup_model, hres]
    | timedOut j => simp [auth_setup_model, hres] at hsaved
    | fuelOut => simp [auth_setup_model, hres] at hsaved

/-- Witness for C8: an immediately successful login run saves the state
and leaves mode `0o600` on the file. -/
theorem C8_state_file_mode_witness :
    (auth_setup_model true obs_ok (fun i => i) true).state_saved = true ∧
    (auth_setup_model true obs_ok (fun i => i) true).final_mode =
      some (S_IRUSR ||| S_IWUSR) ∧
    S_IRUSR ||| S_IWUSR = 0o600 ∧ 0o600 % 0o100 = 0 :=
  ⟨by decide, C8_state_file_mode true obs_ok (fun i => i) (by decide)⟩

/-- C3: requesting authenticated capture while the session state file does
not exist exits with a non-zero status before any capture: no page is
attempted and no output file is produced. -/
theorem C3_missing_auth_state (env : String × String → PageEnv)
    (pages : List (String × String)) :
    (take_screenshots false true env pages).exit_code ≠ 0 ∧
    (take_screenshots false true env pages).attempted = [] ∧
    (take_screenshots false true env pages).outputs = [] :=
  ⟨Nat.one_ne_zero, rfl, rfl⟩

/-- C4: with the auth precondition satisfied, a per-page capture failure
does not abort the run — every page in the ordered list is attempted,
every page whose own capture succeeds has its output file among the
results, and the run exits with status 0, regardless of other pages'
failures. -/
theorem C4_failure_isolation (auth_state_exists use_auth : Bool)
    (env : String × String → PageEnv) (pages : List (String × String))
    (hpre : ¬(use_auth = true ∧ auth_state_exists = false)) :
    (take_screenshots auth_state_exists use_auth env pages).attempted =
      pages ∧
    (∀ pr ∈ pages, (env pr).goto_ok = true → (env pr).shot_ok = true →
      (OUTPUT_DIR ++ "/" ++ pr.2) ∈
        (take_screenshots auth_state_exists use_auth env pages).outputs) ∧
    (take_screenshots auth_state_exists use_auth env pages).exit_code = 0 := by
  have hguard : (use_auth && !auth_state_exists) = false := by
    cases use_auth <;> cases auth_state_exists <;> simp_all
  simp only [take_screenshots, hguard, Bool.false_eq_true, if_false]
  exact ⟨capture_loop_attempted env pages,
    fun pr hmem hg hs => capture_loop_mem env pages pr hmem hg hs, trivial⟩

/-- Witness for C4: an unauthenticated two-page run in which the second
page's navigation raises still attempts both pages, still saves the first
page's file, and exits 0. -/
theorem C4_failure_isolation_witness :
    (take_screenshots true false env_demo demo_pages).attempted =
      demo_pages ∧
    (∀ pr ∈ demo_pages, (env_demo pr).goto_ok = true →
      (env_demo pr).shot_ok = true →
      (OUTPUT_DIR ++ "/" ++ pr.2) ∈
        (take_screenshots true false env_demo demo_pages).outputs) ∧
    (take_screenshots true false env_demo demo_pages).exit_code = 0 :=
  C4_failure_isolation true false env_demo demo_pages (by simp)

/-- C6: with the auth precondition satisfied, a run in which every
per-page capture succeeds produces exactly one output file per requested
page and prints a final count equal to the number of pages. -/
theorem C6_success_count (auth_state_exists use_auth : Bool)
    (env : String × String → PageEnv) (pages : List (String × String))
    (hpre : ¬(use_auth = true ∧ auth_state_exists = false))
    (hok : ∀ pr ∈ pages, (env pr).goto_ok = true ∧ (env pr).shot_ok = true) :
    (take_screenshots auth_state_exists use_auth env pages).outputs.length =
      pages.length ∧
    (take_screenshots auth_state_exists use_auth env pages).printed_count =
      some pages.length := by
  have hguard : (use_auth && !auth_state_exists) = false := by
    cases use_auth <;> cases auth_state_exists <;> simp_all
  have hlen := capture_loop_length_all_ok env pages hok
  simp [take_screenshots, hguard, hlen]

/-- Witness for C6: an all-success two-page authenticated run yields two
files and prints 2. -/
theorem C6_success_count_witness :
    (take_screenshots true true env_all_ok demo_pages).outputs.length =
      demo_pages.length ∧
    (take_screenshots true true env_all_ok demo_pages).printed_count =
      some demo_pages.length :=
  C6_success_count true true env_all_ok demo_pages (by simp)
    (fun pr hmem => ⟨rfl, rfl⟩)

/-- C9: when navigation lands on a URL containing `/login` and the
browser calls themselves succeed, `take_screenshot` prints the
session-may-have-expired warning and still saves the screenshot at the
output path; whether the capture hard-fails depends only on the library
calls, never on the landed URL being a login page. -/
theorem C9_login_landing (landed_url output_name : String)
    (h : pyIn "/login" landed_url = true) :
    take_screenshot true landed_url true output_name =
      (true, some (OUTPUT_DIR ++ "/" ++ output_name)) ∧
    (∀ goto_ok shot_ok : Bool,
      ((take_screenshot goto_ok landed_url shot_ok output_name).2).isSome =
        (goto_ok && shot_ok)) := by
  constructor
  · simp [take_screenshot, h]
  · intro goto_ok shot_ok
    cases goto_ok <;> cases shot_ok <;> simp [take_screenshot]

/-- Witness for C9 at the concrete login URL of a local run. -/
theorem C9_login_landing_witness :
    take_screenshot true "https://localhost:4321/login" true "page-top.png" =
      (true, some (OUTPUT_DIR ++ "/" ++ "page-top.png")) ∧
    (∀ goto_ok shot_ok : Bool,
      ((take_screenshot goto_ok "https://localhost:4321/login" shot_ok
        "page-top.png").2).isSome = (goto_ok && shot_ok)) :=
  C9_login_landing "https://localhost:4321/login" "page-top.png" (by decide)

end Screenshot
